import Mathlib

/-!
Verification of the client-side session and identity core of the
AjiToWork job-search application (Angular + json-server backend).

The definitions below are a shallow embedding of the TypeScript source:

* `AuthService` — the refactored authentication service
  (`features/auth/services/auth.service.ts`, the version using
  `StorageService` and `STORAGE_KEYS`): `initializeAuthState`,
  `setAuthState`, `clearAuthState`, `login`, `register`,
  `checkEmailExists`, `logout`, `isLoggedIn`, `getCurrentUser`,
  `handleError`.
* `LegacyAuthService` — the older authentication service still present
  at `src/app/features/auth/services/auth.service.ts` (used by
  `guestGuard`): `login`, `isLoged`, `logout`.
* `StorageService` — the typed `localStorage` wrapper
  (`core/services/storage.service.ts`).
* `PasswordService.validatePasswordStrength`
  (`core/services/password.service.ts`).
* `RegisterComponent` form validation and the check-email-then-register
  flow (`features/auth/components/register/register.component.ts`,
  `core/validators/custom-validators.ts`).
* the two route guards (`core/guards/auth.guard.ts` / `guest.guard.ts`).

Asynchronous HTTP calls are modelled by passing the outcome of the
network round-trip (`Except Nat …`, the `Nat` being the HTTP status of a
failed request) to the function that consumes it; `localStorage` is
modelled as an association list.  Observables that merely broadcast the
state are not modelled: the `BehaviorSubject` values are the fields of
`AuthState`.
-/

instance {ε α : Type} [DecidableEq ε] [DecidableEq α] :
    DecidableEq (Except ε α) := fun x y =>
  match x, y with
  | .ok a, .ok b =>
      if h : a = b then .isTrue (by rw [h])
      else .isFalse (fun c => h (Except.ok.inj c))
  | .error a, .error b =>
      if h : a = b then .isTrue (by rw [h])
      else .isFalse (fun c => h (Except.error.inj c))
  | .ok _, .error _ => .isFalse (fun c => Except.noConfusion c)
  | .error _, .ok _ => .isFalse (fun c => Except.noConfusion c)

/-- A record of the remote `users` collection (interface `User` in
`user.model.ts`): id, names, email and the stored password. -/
structure User where
  id : String
  firstName : String
  lastName : String
  email : String
  password : String
deriving Repr, DecidableEq

/-- The sanitized user exposed to the UI (interface `AuthUser`):
the `User` record with the password stripped. -/
structure AuthUser where
  id : String
  firstName : String
  lastName : String
  email : String
deriving Repr, DecidableEq

/-- Login credentials (interface `UserLogin`). -/
structure UserLogin where
  email : String
  password : String
deriving Repr, DecidableEq

/-- Registration DTO (interface `UserRegistration`). -/
structure UserRegistration where
  firstName : String
  lastName : String
  email : String
  password : String
  confirmPassword : String
deriving Repr, DecidableEq

/-! ### The persisted store as seen through `StorageService`

`AuthService` only ever stores a boolean under `authenticated` and an
`AuthUser` object under `user_data` (`STORAGE_KEYS` in
`core/constants/storage-keys.ts`), so the values of the typed store are
modelled as that sum.  JavaScript truthiness of a parsed value: a stored
boolean is truthy iff it is `true`; a stored object is always truthy. -/

inductive StoreVal where
  | b : Bool → StoreVal
  | u : AuthUser → StoreVal
deriving Repr, DecidableEq

/-- JS truthiness of `storageService.getItem` result (`null` is falsy,
`false` is falsy, any object is truthy). -/
def truthyVal : Option StoreVal → Bool
  | none => false
  | some (.b v) => v
  | some (.u _) => true

/-- Remove every binding of a key from an association list (the effect
of `localStorage.removeItem`, and the de-duplication step of
`localStorage.setItem`). -/
def eraseKey {β : Type} : List (String × β) → String → List (String × β)
  | [], _ => []
  | (a, b) :: t, k => if a = k then eraseKey t k else (a, b) :: eraseKey t k

/-- Look a key up in an association list (the effect of
`localStorage.getItem`; `none` models `null`). -/
def lookupKey {β : Type} : List (String × β) → String → Option β
  | [], _ => none
  | (a, b) :: t, k => if k = a then some b else lookupKey t k

/-- The typed persisted store: an association list keyed by storage key.
`localStorage` keys are unique; the operations below keep them so. -/
abbrev Store : Type := List (String × StoreVal)

/-- TS `storageService.setItem key value` on a non-failing storage:
replace any existing binding of `key`. -/
def storeSet (s : Store) (k : String) (v : StoreVal) : Store :=
  (k, v) :: eraseKey s k

/-- TS `storageService.removeItem key` on a non-failing storage. -/
def storeRemove (s : Store) (k : String) : Store :=
  eraseKey s k

/-- TS `storageService.getItem key` on a non-failing storage. -/
def storeGet (s : Store) (k : String) : Option StoreVal :=
  lookupKey s k

/-- storage key `STORAGE_KEYS.AUTHENTICATED`. -/
def KEY_AUTHENTICATED : String := "authenticated"

/-- storage key `STORAGE_KEYS.USER_DATA`. -/
def KEY_USER_DATA : String := "user_data"

/-! ### The refactored `AuthService` -/

/-- The state owned by the refactored `AuthService`: the two
`BehaviorSubject` values (`currentUserSubject`, `isAuthenticatedSubject`),
the `isLoading` signal, and the persisted store it writes through
`StorageService`. -/
structure AuthState where
  currentUser : Option AuthUser
  isAuthenticated : Bool
  isLoading : Bool
  store : Store
deriving Repr, DecidableEq

namespace AuthService

/-- TS `initializeAuthState()`: read `authenticated` and `user_data` from
the store; if both are truthy, push the stored user and `true` into the
subjects, else leave the state untouched.  (The TS code trusts the
stored shape: `user_data` holding anything but an `AuthUser` object is
not produced by any writer, and a stored boolean under `user_data`
would be falsy or type-confused; the model hydrates exactly when a
truthy `authenticated` and a stored user object are present.) -/
def initializeAuthState (st : AuthState) : AuthState :=
  match truthyVal (storeGet st.store KEY_AUTHENTICATED),
        storeGet st.store KEY_USER_DATA with
  | true, some (.u user) =>
      { st with currentUser := some user, isAuthenticated := true }
  | _, _ => st

/-- TS `setAuthState(user)`: persist `authenticated := true` and the
`AuthUser` snapshot, then push both subjects. -/
def setAuthState (user : AuthUser) (st : AuthState) : AuthState :=
  { st with
    store := storeSet (storeSet st.store KEY_AUTHENTICATED (.b true))
                      KEY_USER_DATA (.u user)
    currentUser := some user
    isAuthenticated := true }

/-- TS `clearAuthState()`: remove both persisted keys and reset both
subjects. -/
def clearAuthState (st : AuthState) : AuthState :=
  { st with
    store := storeRemove (storeRemove st.store KEY_AUTHENTICATED)
                         KEY_USER_DATA
    currentUser := none
    isAuthenticated := false }

/-- TS `logout()` delegates to `clearAuthState`. -/
def logout (st : AuthState) : AuthState := clearAuthState st

/-- TS `isLoggedIn()`: current value of `isAuthenticatedSubject`. -/
def isLoggedIn (st : AuthState) : Bool := st.isAuthenticated

/-- TS `getCurrentUser()`: current value of `currentUserSubject`. -/
def getCurrentUser (st : AuthState) : Option AuthUser := st.currentUser

/-- TS `handleError(error)` for an HTTP failure with the given status
(the thrown-`Error` branch is handled at the throw sites; an
`ErrorEvent` network error surfaces as status 0 here). -/
def handleError (status : Nat) : String :=
  if status = 0 then
    "Unable to connect to server. Please check your internet connection."
  else if status = 404 then
    "Service not found. Please try again later."
  else if status ≥ 500 then
    "Server error. Please try again later."
  else
    "An unexpected error occurred. Please try again."

/-- The backend `GET /users?email=…` query: json-server returns the
records whose `email` field equals the parameter. -/
def fetchByEmail (db : List User) (email : String) : List User :=
  List.filter (fun u => u.email = email) db

/-- TS `login(credentials)` applied to the outcome `fetched` of the
`GET /users?email=…` round-trip.  Mirrors the `map`/`catchError`
pipeline: an empty result throws `User not found`, a password mismatch
throws `Invalid password`, a match builds the `AuthUser`, calls
`setAuthState` and returns it; every path finally clears `isLoading`,
and a transport failure is normalized by `handleError`. -/
def login (fetched : Except Nat (List User)) (credentials : UserLogin)
    (st : AuthState) : Except String AuthUser × AuthState :=
  let st1 : AuthState := { st with isLoading := true }
  match fetched with
  | .error status => (.error (handleError status), { st1 with isLoading := false })
  | .ok users =>
    match users with
    | [] => (.error "User not found", { st1 with isLoading := false })
    | user :: _ =>
      if user.password ≠ credentials.password then
        (.error "Invalid password", { st1 with isLoading := false })
      else
        let authUser : AuthUser :=
          ⟨user.id, user.firstName, user.lastName, user.email⟩
        (.ok authUser, { setAuthState authUser st1 with isLoading := false })

/-- TS `register(userRegistration)` applied to the outcome `posted` of the
`POST /users` round-trip: on success return the created record, on
failure return the normalized error; only the `isLoading` signal is
touched (set on entry, cleared in `tap`/`catchError`). -/
def register (posted : Except Nat User) (st : AuthState) :
    Except String User × AuthState :=
  let st1 : AuthState := { st with isLoading := true }
  match posted with
  | .ok user => (.ok user, { st1 with isLoading := false })
  | .error status => (.error (handleError status), { st1 with isLoading := false })

/-- TS `checkEmailExists(email)` applied to the outcome of the
`GET /users?email=…` round-trip: `map(users.length > 0)` with
`catchError(() => of(false))`.  It reads no state and writes none. -/
def checkEmailExists (fetched : Except Nat (List User)) : Bool :=
  match fetched with
  | .ok users => decide (users.length > 0)
  | .error _ => false

end AuthService

/-! ### Reachable session states and the session invariant -/

/-- The invariant claimed by the spec: the `authenticated` flag agrees
with the presence of a current user. -/
def sessionInvariant (st : AuthState) : Prop :=
  st.isAuthenticated = st.currentUser.isSome

/-- Session states reachable through the `AuthService` lifecycle: the
service starts with empty subjects over an arbitrary persisted store,
the constructor runs `initializeAuthState`, a successful login runs
`setAuthState`, logout runs `clearAuthState`, and the `isLoading`
signal toggles freely. -/
inductive Reachable : AuthState → Prop where
  | startup (store0 : Store) :
      Reachable { currentUser := none, isAuthenticated := false,
                  isLoading := false, store := store0 }
  | hydrate {st : AuthState} :
      Reachable st → Reachable (AuthService.initializeAuthState st)
  | loginSet {st : AuthState} (user : AuthUser) :
      Reachable st → Reachable (AuthService.setAuthState user st)
  | logoutClear {st : AuthState} :
      Reachable st → Reachable (AuthService.clearAuthState st)
  | loading {st : AuthState} (flag : Bool) :
      Reachable st → Reachable { st with isLoading := flag }

/-! ### The raw `localStorage` and `StorageService`

The browser storage itself is a string-to-string map whose primitive
operations can throw (quota exceeded on write, `SecurityError` when
storage is disabled).  The possibility of such a failure is modelled by
a `fault` flag passed to each primitive; the service methods are
translated with exactly the `try`/`catch` structure of the source, so a
method without a `catch` re-raises the primitive's failure. -/

abbrev RawStorage : Type := List (String × String)

/-- raw `localStorage.setItem`. -/
def localStorageSetItem (fault : Bool) (ls : RawStorage) (k v : String) :
    Except String RawStorage :=
  if fault then .error "QuotaExceededError"
  else .ok ((k, v) :: eraseKey ls k)

/-- raw `localStorage.getItem` (`none` models `null`). -/
def localStorageGetItem (fault : Bool) (ls : RawStorage) (k : String) :
    Except String (Option String) :=
  if fault then .error "SecurityError" else .ok (lookupKey ls k)

/-- raw `localStorage.removeItem`. -/
def localStorageRemoveItem (fault : Bool) (ls : RawStorage) (k : String) :
    Except String RawStorage :=
  if fault then .error "SecurityError"
  else .ok (eraseKey ls k)

/-- raw `localStorage.clear`. -/
def localStorageClear (fault : Bool) (_ls : RawStorage) :
    Except String RawStorage :=
  if fault then .error "SecurityError" else .ok []

/-- raw key enumeration (`localStorage.length` / `localStorage.key(i)`). -/
def localStorageKeys (fault : Bool) (ls : RawStorage) :
    Except String (List String) :=
  if fault then .error "SecurityError" else .ok (List.map Prod.fst ls)

namespace StorageService

/-- TS `setItem(key, value)`: `try` serialize and write, `catch` log and
return normally (the state is left as it was). -/
def setItem (fault : Bool) (ls : RawStorage) (k v : String) :
    Except String RawStorage :=
  match localStorageSetItem fault ls k v with
  | .ok ls2 => .ok ls2
  | .error _ => .ok ls

/-- TS `getItem(key)`: `try` read and parse, `catch` log and return `null`. -/
def getItem (fault : Bool) (ls : RawStorage) (k : String) :
    Except String (Option String) :=
  match localStorageGetItem fault ls k with
  | .ok v => .ok v
  | .error _ => .ok none

/-- TS `removeItem(key)`: `try` remove, `catch` log and return normally. -/
def removeItem (fault : Bool) (ls : RawStorage) (k : String) :
    Except String RawStorage :=
  match localStorageRemoveItem fault ls k with
  | .ok ls2 => .ok ls2
  | .error _ => .ok ls

/-- TS `clear()`: `try` clear, `catch` log and return normally. -/
def clear (fault : Bool) (ls : RawStorage) : Except String RawStorage :=
  match localStorageClear fault ls with
  | .ok ls2 => .ok ls2
  | .error _ => .ok ls

/-- TS `hasItem(key)`: `return localStorage.getItem(key) !== null;` —
written without any `try`/`catch`, so a storage failure propagates to
the caller. -/
def hasItem (fault : Bool) (ls : RawStorage) (k : String) :
    Except String Bool :=
  match localStorageGetItem fault ls k with
  | .ok v => .ok v.isSome
  | .error e => .error e

/-- TS `getAllKeys()`: loops over `localStorage.length` / `localStorage.key(i)`
without any `try`/`catch`, so a storage failure propagates to the
caller. -/
def getAllKeys (fault : Bool) (ls : RawStorage) :
    Except String (List String) :=
  localStorageKeys fault ls

end StorageService

/-! ### The legacy `AuthService` and the route guards -/

namespace LegacyAuthService

/-- Legacy `login(email)` (the service at
`src/app/features/auth/services/auth.service.ts`): it builds the
`GET /users?email=…` observable and then, synchronously and
unconditionally, executes
`localStorage.setItem('authenticated', JSON.stringify(true))` — before
the network round-trip resolves and regardless of its outcome.  The
unvalidated fetch outcome is returned to the caller (the login
component inspects it). -/
def login (fetched : Except Nat (List User)) (ls : RawStorage) :
    Except Nat (List User) × RawStorage :=
  (fetched, ("authenticated", "true") :: eraseKey ls "authenticated")

/-- Legacy `isLoged()`: JS truthiness of
`localStorage.getItem('authenticated')` (a non-null, non-empty string). -/
def isLoged (ls : RawStorage) : Bool :=
  match lookupKey ls "authenticated" with
  | some s => s != ""
  | none => false

end LegacyAuthService

/-- Outcome of the legacy login component's `next` handler
(`login.component.ts` `onSubmit`): empty result sets a `notFound` form
error, password mismatch sets an `invalid` form error, a match
navigates home. -/
inductive LegacyLoginOutcome where
  | notFoundError
  | invalidError
  | navigateHome
deriving Repr, DecidableEq

/-- The legacy login component's handling of the fetched users. -/
def legacyLoginHandle (users : List User) (password : String) :
    LegacyLoginOutcome :=
  match users with
  | [] => .notFoundError
  | user :: _ =>
      if user.password = password then .navigateHome else .invalidError

/-- TS `authGuard` (`core/guards/auth.guard.ts`): allow iff
`authService.isLoggedIn()`, else `router.navigate([ROUTES.AUTH.LOGIN])`
and deny.  The pair is (allowed, navigation target if any); the guard
only reads the session state. -/
def authGuard (st : AuthState) : Bool × Option String :=
  if AuthService.isLoggedIn st then (true, none)
  else (false, some "/auth/login")

/-- TS `guestGuard` (`core/guards/guest.guard.ts`): it injects the legacy
service, denies with `router.navigate(['/'])` iff `service.isLoged()`,
else allows.  The guard only reads the persisted flag. -/
def guestGuard (ls : RawStorage) : Bool × Option String :=
  if LegacyAuthService.isLoged ls then (false, some "/")
  else (true, none)

/-! ### `PasswordService.validatePasswordStrength` -/

namespace PasswordService

/-- the regex test `/[A-Z]/.test(password)`. -/
def hasUpperChar (password : String) : Bool :=
  password.toList.any fun c => decide ('A' ≤ c) && decide (c ≤ 'Z')

/-- the regex test `/[a-z]/.test(password)`. -/
def hasLowerChar (password : String) : Bool :=
  password.toList.any fun c => decide ('a' ≤ c) && decide (c ≤ 'z')

/-- the regex test `/[0-9]/.test(password)`. -/
def hasDigitChar (password : String) : Bool :=
  password.toList.any fun c => decide ('0' ≤ c) && decide (c ≤ '9')

/-- the characters of the special-character class in
`validatePasswordStrength` (brace characters written by code point). -/
def specialChars : List Char :=
  ['!', '@', '#', '$', '%', '^', '&', '*', '(', ')', '_', '+', '-', '=',
   '[', ']', Char.ofNat 123, Char.ofNat 125, ';', '\x27', ':', '"',
   '\\', '|', ',', '.', '<', '>', '/', '?']

/-- the regex test for the special-character class. -/
def hasSpecialChar (password : String) : Bool :=
  password.toList.any fun c => specialChars.contains c

/-- TS `validatePasswordStrength(password)`: collect one message per failed
check, in source order; `isValid` is `errors.length === 0`.  Returned as
(isValid, errors).  (Strings here are ASCII, so JS `length` and Lean
`String.length` agree.) -/
def validatePasswordStrength (password : String) : Bool × List String :=
  let errors : List String := []
  let errors := if password.length < 8 then
      errors ++ ["Password must be at least 8 characters long"] else errors
  let errors := if !(hasUpperChar password) then
      errors ++ ["Password must contain at least one uppercase letter"] else errors
  let errors := if !(hasLowerChar password) then
      errors ++ ["Password must contain at least one lowercase letter"] else errors
  let errors := if !(hasDigitChar password) then
      errors ++ ["Password must contain at least one number"] else errors
  let errors := if !(hasSpecialChar password) then
      errors ++ ["Password must contain at least one special character"] else errors
  (errors.isEmpty, errors)

end PasswordService

/-! ### The register form and the check-email-then-register flow

`RegisterComponent.createRegisterForm` attaches per-control validators
(`required`, `noWhitespace`, `validName`, `email`, `minLength(8)`) and
the group validator `passwordMatch`.  The Angular built-ins `email` and
`minLength` treat an empty value as valid (`required` covers it). -/

namespace CustomValidators

/-- TS `Validators.required` passes iff the control value is non-empty. -/
def requiredOk (value : String) : Bool := value != ""

/-- whitespace characters of the regex class `\s` (its ASCII members;
the inputs considered here are ASCII). -/
def jsWhitespaceChar (c : Char) : Bool :=
  c = ' ' || c = '\t' || c = '\n' || c = '\r' ||
  c = Char.ofNat 11 || c = Char.ofNat 12

/-- TS `noWhitespace()`: errors iff `(value || '').trim()` is empty, that
is, iff every character of the value is whitespace. -/
def noWhitespaceOk (value : String) : Bool :=
  !(value.toList.all jsWhitespaceChar)

/-- a character of the `validName` class [a-zA-Z\s\-\x27]. -/
def validNameChar (c : Char) : Bool :=
  c.isAlpha || jsWhitespaceChar c || c = '-' || c = '\x27'

/-- TS `validName()`: an empty value passes (the validator returns `null`
for falsy values); otherwise the anchored pattern `[a-zA-Z\s\-\x27]+`
must match the whole value. -/
def validNameOk (value : String) : Bool :=
  value == "" || value.toList.all validNameChar

/-- TS `Validators.minLength(n)` passes for an empty value, otherwise
requires at least `n` characters. -/
def minLengthOk (n : Nat) (value : String) : Bool :=
  value == "" || decide (value.length ≥ n)

end CustomValidators

/-! The Angular `Validators.email` regular expression, embedded as a
character-level checker:
local part of 1–64 characters, made of dot-separated non-empty atoms
over the class alnum plus specials; an `@`; a domain of dot-separated
labels, each 1–63 characters, alphanumeric at both ends with alnum or
hyphen inside; total length at most 254. -/

/-- a character of the local-part atom class of `Validators.email`
(code points 96, 123 and 125 are backquote and the braces). -/
def emailLocalChar (c : Char) : Bool :=
  c.isAlphanum ||
  ['!', '#', '$', '%', '&', '\x27', '*', '+', '/', '=', '?', '^', '_',
   Char.ofNat 96, Char.ofNat 123, '|', Char.ofNat 125, '~', '-'].contains c

/-- splitting a character list at a separator (the list analogue of
`String.splitOn` for a single-character separator): `splitChar '.' "a.b"`
is `["a", "b"]`, and empty pieces are kept. -/
def splitChar (sep : Char) : List Char → List (List Char)
  | [] => [[]]
  | c :: rest =>
    let r := splitChar sep rest
    if c = sep then [] :: r
    else
      match r with
      | [] => [[c]]
      | g :: gs => (c :: g) :: gs

/-- a non-empty atom of the local part. -/
def emailAtomOk (a : List Char) : Bool :=
  !(a.isEmpty) && a.all emailLocalChar

/-- a domain label: `[a-zA-Z0-9]([a-zA-Z0-9-]{0,61}[a-zA-Z0-9])?`. -/
def emailLabelOk (l : List Char) : Bool :=
  match l.head?, l.getLast? with
  | some a, some b =>
      a.isAlphanum && b.isAlphanum &&
      ((l.drop 1).dropLast.all fun d => d.isAlphanum || d = '-') &&
      decide (l.length ≤ 63)
  | _, _ => false

/-- TS `Validators.email`'s regular expression as a whole-string test:
the two lookaheads bound the local part to 1–64 characters and the
whole address to at most 254; the body requires dot-separated atoms,
one `@`, and dot-separated domain labels. -/
def emailValid (s : String) : Bool :=
  let cs := s.toList
  match splitChar '@' cs with
  | [localPart, domain] =>
      decide (1 ≤ localPart.length) && decide (localPart.length ≤ 64) &&
      decide (cs.length ≤ 254) &&
      (splitChar '.' localPart).all emailAtomOk &&
      (splitChar '.' domain).all emailLabelOk
  | _ => false

namespace RegisterComponent

open CustomValidators

/-- Validity of the register form: every control validator passes and
the `passwordMatch` group validator finds `password == confirmPassword`
(when `confirmPassword` carries a `required` error the group validator
returns `null`, but the form is then already invalid through that
control, so form validity is this conjunction). -/
def registerFormValid (r : UserRegistration) : Bool :=
  (requiredOk r.firstName && noWhitespaceOk r.firstName && validNameOk r.firstName) &&
  (requiredOk r.lastName && noWhitespaceOk r.lastName && validNameOk r.lastName) &&
  (requiredOk r.email && (r.email == "" || emailValid r.email)) &&
  (requiredOk r.password && minLengthOk 8 r.password) &&
  requiredOk r.confirmPassword &&
  r.password == r.confirmPassword

/-- What a submission does, in terms of the calls it issues. -/
inductive SubmitAction where
  | rejectedInvalid
  | abortedNoEmail
  | duplicateEmail
  | createIssued
deriving Repr, DecidableEq

/-- TS `onSubmit` followed by `checkEmailAndRegister`: an invalid form is
marked touched and nothing else happens; a missing email aborts; then
the outcome `emailExists` of `checkEmailExists` decides between the
duplicate-email error (no `POST` is issued) and `register()` (the
`POST` is issued).  The `isLoading()` re-entrancy guard only suppresses
double submission and is not modelled. -/
def onSubmitFlow (r : UserRegistration) (emailExists : Bool) : SubmitAction :=
  if !(registerFormValid r) then .rejectedInvalid
  else if r.email == "" then .abortedNoEmail
  else if emailExists then .duplicateEmail
  else .createIssued

end RegisterComponent

/-! ### Helper lemmas about the association-list store -/

theorem lookupKey_eraseKey_self {β : Type} (s : List (String × β)) (k : String) :
    lookupKey (eraseKey s k) k = none := by
  induction s with
  | nil => rfl
  | cons a t ih =>
    rcases a with ⟨ak, av⟩
    by_cases hak : ak = k
    · simpa [eraseKey, hak] using ih
    · have hk : ¬ k = ak := fun h => hak h.symm
      simpa [eraseKey, lookupKey, hak, hk] using ih

theorem lookupKey_eraseKey_ne {β : Type} (s : List (String × β)) (k k' : String)
    (h : k' ≠ k) : lookupKey (eraseKey s k) k' = lookupKey s k' := by
  induction s with
  | nil => rfl
  | cons a t ih =>
    rcases a with ⟨ak, av⟩
    by_cases hak : ak = k
    · subst hak
      simp [eraseKey, lookupKey, h, ih]
    · by_cases hk : k' = ak
      · subst hk
        simp [eraseKey, lookupKey, hak]
      · simp [eraseKey, lookupKey, hak, hk, ih]

theorem eraseKey_idem {β : Type} (s : List (String × β)) (k : String) :
    eraseKey (eraseKey s k) k = eraseKey s k := by
  induction s with
  | nil => rfl
  | cons a t ih =>
    rcases a with ⟨ak, av⟩
    by_cases hak : ak = k
    · simpa [eraseKey, hak] using ih
    · simpa [eraseKey, hak] using ih

theorem eraseKey_comm {β : Type} (s : List (String × β)) (k k' : String) :
    eraseKey (eraseKey s k) k' = eraseKey (eraseKey s k') k := by
  induction s with
  | nil => rfl
  | cons a t ih =>
    rcases a with ⟨ak, av⟩
    by_cases hak : ak = k
    · subst hak
      by_cases hak' : ak = k'
      · subst hak'
        simp [eraseKey]
      · simp [eraseKey, hak', ih]
    · by_cases hak' : ak = k'
      · subst hak'
        simp [eraseKey, hak, ih]
      · simp [eraseKey, hak, hak', ih]

theorem storeGet_set_self (s : Store) (k : String) (v : StoreVal) :
    storeGet (storeSet s k v) k = some v := by
  simp [storeGet, storeSet, lookupKey]

theorem storeGet_set_ne (s : Store) (k k' : String) (v : StoreVal)
    (h : k' ≠ k) : storeGet (storeSet s k v) k' = storeGet s k' := by
  simp [storeGet, storeSet, lookupKey, h, lookupKey_eraseKey_ne s k k' h]

theorem storeGet_remove_self (s : Store) (k : String) :
    storeGet (storeRemove s k) k = none := by
  simpa [storeGet, storeRemove] using lookupKey_eraseKey_self s k

theorem storeGet_remove_ne (s : Store) (k k' : String) (h : k' ≠ k) :
    storeGet (storeRemove s k) k' = storeGet s k' := by
  simpa [storeGet, storeRemove] using lookupKey_eraseKey_ne s k k' h

/-! ### Claim theorems -/

/-- C1: `login` fails with the `User not found` error when the fetch by
email yields no candidate record; fails with the `Invalid password`
error (never not-found) when a candidate exists but its stored password
differs from the supplied one; and on a password match transitions the
session to authenticated, persists the `AuthUser` snapshot (id,
firstName, lastName, email) under both storage keys, and returns that
`AuthUser`. -/
theorem login_spec (db : List User) (credentials : UserLogin) (st : AuthState) :
    (AuthService.fetchByEmail db credentials.email = [] →
      AuthService.login (.ok (AuthService.fetchByEmail db credentials.email))
          credentials st =
        (.error "User not found", { st with isLoading := false })) ∧
    (∀ user rest,
      AuthService.fetchByEmail db credentials.email = user :: rest →
      user.password ≠ credentials.password →
      AuthService.login (.ok (AuthService.fetchByEmail db credentials.email))
          credentials st =
        (.error "Invalid password", { st with isLoading := false })) ∧
    (∀ user rest,
      AuthService.fetchByEmail db credentials.email = user :: rest →
      user.password = credentials.password →
      (AuthService.login (.ok (AuthService.fetchByEmail db credentials.email))
          credentials st).1 =
        .ok ⟨user.id, user.firstName, user.lastName, user.email⟩ ∧
      (AuthService.login (.ok (AuthService.fetchByEmail db credentials.email))
          credentials st).2.isAuthenticated = true ∧
      (AuthService.login (.ok (AuthService.fetchByEmail db credentials.email))
          credentials st).2.currentUser =
        some ⟨user.id, user.firstName, user.lastName, user.email⟩ ∧
      storeGet (AuthService.login
          (.ok (AuthService.fetchByEmail db credentials.email))
          credentials st).2.store KEY_USER_DATA =
        some (.u ⟨user.id, user.firstName, user.lastName, user.email⟩) ∧
      storeGet (AuthService.login
          (.ok (AuthService.fetchByEmail db credentials.email))
          credentials st).2.store KEY_AUTHENTICATED = some (.b true)) := by
  refine ⟨?_, ?_, ?_⟩
  · intro h
    rw [h]
    rfl
  · intro user rest h hne
    rw [h]
    simp [AuthService.login, hne]
  · intro user rest h heq
    rw [h]
    have hAU : KEY_AUTHENTICATED ≠ KEY_USER_DATA := by decide
    refine ⟨?_, ?_, ?_, ?_, ?_⟩ <;>
      simp [AuthService.login, heq, AuthService.setAuthState,
            storeGet_set_self, storeGet_set_ne _ _ _ _ hAU]

/-- Witness for C1 at a concrete one-user database: a matching login
returns the sanitized user. -/
theorem login_spec_witness :
    (AuthService.login
      (.ok (AuthService.fetchByEmail
        [⟨"1", "John", "Doe", "john@example.com", "Secret12!"⟩]
        "john@example.com"))
      ⟨"john@example.com", "Secret12!"⟩ ⟨none, false, false, []⟩).1 =
    .ok ⟨"1", "John", "Doe", "john@example.com"⟩ :=
  ((login_spec [⟨"1", "John", "Doe", "john@example.com", "Secret12!"⟩]
      ⟨"john@example.com", "Secret12!"⟩ ⟨none, false, false, []⟩).2.2
    ⟨"1", "John", "Doe", "john@example.com", "Secret12!"⟩ []
    (by decide) rfl).1

/-- C2: the session invariant (authenticated iff a user is present)
holds in the initial empty state and in every state reachable through
startup hydration, a successful login's `setAuthState`, logout's
`clearAuthState`, and toggles of the loading signal. -/
theorem session_state_invariant (st : AuthState) (h : Reachable st) :
    sessionInvariant st := by
  induction h with
  | startup s0 => simp [sessionInvariant]
  | hydrate hR ih =>
    simp only [sessionInvariant, AuthService.initializeAuthState] at ih ⊢
    split
    · simp
    · exact ih
  | loginSet user _ ih => simp [AuthService.setAuthState, sessionInvariant]
  | logoutClear _ ih => simp [AuthService.clearAuthState, sessionInvariant]
  | loading flag _ ih => simpa [sessionInvariant] using ih

/-- Witness for C2: the invariant at the concrete startup state over the
empty store. -/
theorem session_state_invariant_witness :
    sessionInvariant ⟨none, false, false, []⟩ :=
  session_state_invariant ⟨none, false, false, []⟩ (Reachable.startup [])

/-- C4: after `logout`, `isLoggedIn` is false, `getCurrentUser` is
absent, both persisted keys are absent from the store, and logout is
idempotent (and unconditional: the statement quantifies over every
prior state). -/
theorem logout_spec (st : AuthState) :
    AuthService.isLoggedIn (AuthService.logout st) = false ∧
    AuthService.getCurrentUser (AuthService.logout st) = none ∧
    storeGet (AuthService.logout st).store KEY_AUTHENTICATED = none ∧
    storeGet (AuthService.logout st).store KEY_USER_DATA = none ∧
    AuthService.logout (AuthService.logout st) = AuthService.logout st := by
  have hAU : KEY_AUTHENTICATED ≠ KEY_USER_DATA := by decide
  refine ⟨rfl, rfl, ?_, ?_, ?_⟩
  · show storeGet (storeRemove (storeRemove st.store KEY_AUTHENTICATED)
        KEY_USER_DATA) KEY_AUTHENTICATED = none
    rw [storeGet_remove_ne _ _ _ hAU, storeGet_remove_self]
  · show storeGet (storeRemove (storeRemove st.store KEY_AUTHENTICATED)
        KEY_USER_DATA) KEY_USER_DATA = none
    rw [storeGet_remove_self]
  · have h1 : eraseKey (eraseKey (eraseKey st.store KEY_AUTHENTICATED)
        KEY_USER_DATA) KEY_AUTHENTICATED =
      eraseKey (eraseKey st.store KEY_AUTHENTICATED) KEY_USER_DATA := by
      rw [eraseKey_comm, eraseKey_idem]
    simp [AuthService.logout, AuthService.clearAuthState, storeRemove, h1,
          eraseKey_idem]

/-- C3 counterexample: the legacy `AuthService.login` persists
`authenticated = "true"` unconditionally when invoked, so a login
against a non-existent email (which the legacy login component treats
as a failure, setting the `notFound` form error) leaves the persisted
`authenticated` flag set in a store that had been empty — a partially
mutated state on a failure path. -/
theorem legacy_login_partial_mutation :
    legacyLoginHandle (AuthService.fetchByEmail
      [⟨"1", "John", "Doe", "john@example.com", "Secret12!"⟩]
      "nope@b.com") "x" = .notFoundError ∧
    (LegacyAuthService.login (.ok (AuthService.fetchByEmail
      [⟨"1", "John", "Doe", "john@example.com", "Secret12!"⟩]
      "nope@b.com")) []).2 = [("authenticated", "true")] ∧
    LegacyAuthService.isLoged
      (LegacyAuthService.login (.ok (AuthService.fetchByEmail
        [⟨"1", "John", "Doe", "john@example.com", "Secret12!"⟩]
        "nope@b.com")) []).2 = true := by
  decide

/-- C3 (amended): in the refactored `AuthService`, every failure
outcome of `login` and `register` leaves the in-memory snapshot and the
persisted store exactly as before the call (only the transient
`isLoading` signal is reset); `checkEmailExists` returns a plain
boolean and touches no state by construction.  The legacy service's
unconditional persistence is the `legacy_login_partial_mutation`
counterexample. -/
theorem auth_failure_frame (fetched : Except Nat (List User))
    (credentials : UserLogin) (posted : Except Nat User) (st : AuthState) :
    (∀ e : String, (AuthService.login fetched credentials st).1 = .error e →
      (AuthService.login fetched credentials st).2 =
        { st with isLoading := false }) ∧
    (∀ e : String, (AuthService.register posted st).1 = .error e →
      (AuthService.register posted st).2 = { st with isLoading := false }) := by
  constructor
  · intro e h
    rcases fetched with status | users
    · rfl
    · rcases users with _ | ⟨user, rest⟩
      · rfl
      · by_cases hp : user.password = credentials.password
        · exfalso
          simp [AuthService.login, hp] at h
        · simp [AuthService.login, hp]
  · intro e h
    rcases posted with status | user
    · rfl
    · exfalso
      simp [AuthService.register] at h

/-- Witness for the amended C3: the not-found failure on an empty
database leaves the empty session state unchanged. -/
theorem auth_failure_frame_witness :
    (AuthService.login (.ok []) ⟨"a@b.com", "x"⟩
      ⟨none, false, false, []⟩).2 = ⟨none, false, false, []⟩ :=
  (auth_failure_frame (.ok []) ⟨"a@b.com", "x"⟩
    (.ok ⟨"1", "John", "Doe", "john@example.com", "Secret12!"⟩)
    ⟨none, false, false, []⟩).1 "User not found" (by decide)

/-- C5: `checkEmailExists` returns true iff the remote query for the
email yields at least one matching record, and any transport failure
yields false (the error is swallowed, never propagated: the function
returns a plain boolean). -/
theorem checkEmailExists_spec (db : List User) (email : String) :
    (AuthService.checkEmailExists
        (.ok (AuthService.fetchByEmail db email)) = true ↔
      ∃ u ∈ db, u.email = email) ∧
    (∀ status : Nat,
      AuthService.checkEmailExists (.error status) = false) := by
  constructor
  · simp [AuthService.checkEmailExists, AuthService.fetchByEmail,
          List.length_pos, List.filter_eq_nil_iff]
  · intro status
    rfl

/-- Witness for C5: a present email is reported as existing. -/
theorem checkEmailExists_spec_witness :
    AuthService.checkEmailExists (.ok (AuthService.fetchByEmail
      [⟨"1", "John", "Doe", "john@example.com", "Secret12!"⟩]
      "john@example.com")) = true :=
  (checkEmailExists_spec
    [⟨"1", "John", "Doe", "john@example.com", "Secret12!"⟩]
    "john@example.com").1.mpr
    ⟨⟨"1", "John", "Doe", "john@example.com", "Secret12!"⟩, by decide, rfl⟩

/-- C6: a `register` call — successful or not — leaves the entire
session state unchanged (in-memory user, authenticated flag and the
persisted store; only the transient `isLoading` signal is touched), and
on success it returns the created record: registration is not
auto-login. -/
theorem register_frame_spec (posted : Except Nat User) (st : AuthState) :
    (AuthService.register posted st).2.currentUser = st.currentUser ∧
    (AuthService.register posted st).2.isAuthenticated = st.isAuthenticated ∧
    (AuthService.register posted st).2.store = st.store ∧
    (∀ user : User, posted = .ok user →
      (AuthService.register posted st).1 = .ok user) := by
  rcases posted with status | user <;>
    exact ⟨rfl, rfl, rfl, fun u h => by simp_all [AuthService.register]⟩

/-- Witness for C6: a concrete successful registration returns the
created record. -/
theorem register_frame_spec_witness :
    (AuthService.register
      (.ok ⟨"1", "John", "Doe", "john@example.com", "Secret12!"⟩)
      ⟨none, false, false, []⟩).1 =
    .ok ⟨"1", "John", "Doe", "john@example.com", "Secret12!"⟩ :=
  (register_frame_spec
    (.ok ⟨"1", "John", "Doe", "john@example.com", "Secret12!"⟩)
    ⟨none, false, false, []⟩).2.2.2
    ⟨"1", "John", "Doe", "john@example.com", "Secret12!"⟩ rfl

/-- C7 counterexample: the register form accepts the all-lowercase
password "aaaaaaaa" (it only enforces `required` and `minLength(8)` on
the password control) and the flow proceeds to issue the create call,
although the password strength policy of
`validatePasswordStrength` rejects that password. -/
theorem register_weak_password_accepted :
    RegisterComponent.registerFormValid
      ⟨"John", "Doe", "john@example.com", "aaaaaaaa", "aaaaaaaa"⟩ = true ∧
    RegisterComponent.onSubmitFlow
      ⟨"John", "Doe", "john@example.com", "aaaaaaaa", "aaaaaaaa"⟩ false =
      .createIssued ∧
    (PasswordService.validatePasswordStrength "aaaaaaaa").1 = false := by
  decide

/-- C7 (amended): the registration flow issues the create call only if
the whole form is valid — non-blank first and last names of name
characters only, an email accepted by the Angular email pattern, a
password of length at least 8 (the stronger
upper/lower/digit/special policy is not enforced by this form) equal to
its confirmation — and only after the duplicate-email check reported
the address free; when the check reports a duplicate, the flow fails
with the duplicate-email error and no create call is issued. -/
theorem register_flow_spec (r : UserRegistration) (emailExists : Bool) :
    (RegisterComponent.onSubmitFlow r emailExists = .createIssued →
      RegisterComponent.registerFormValid r = true ∧ emailExists = false) ∧
    (RegisterComponent.registerFormValid r = true →
      CustomValidators.noWhitespaceOk r.firstName = true ∧
      CustomValidators.validNameOk r.firstName = true ∧
      CustomValidators.noWhitespaceOk r.lastName = true ∧
      CustomValidators.validNameOk r.lastName = true ∧
      emailValid r.email = true ∧
      r.password.length ≥ 8 ∧
      r.password = r.confirmPassword) ∧
    (RegisterComponent.registerFormValid r = true → emailExists = true →
      RegisterComponent.onSubmitFlow r emailExists = .duplicateEmail) := by
  refine ⟨?_, ?_, ?_⟩
  · intro h
    by_cases hv : RegisterComponent.registerFormValid r = true
    · refine ⟨hv, ?_⟩
      unfold RegisterComponent.onSubmitFlow at h
      cases hex : emailExists
      · rfl
      · by_cases he : r.email = "" <;> simp [hv, hex, he] at h
    · rw [Bool.not_eq_true] at hv
      unfold RegisterComponent.onSubmitFlow at h
      simp [hv] at h
  · intro hv
    unfold RegisterComponent.registerFormValid at hv
    simp only [Bool.and_eq_true] at hv
    obtain ⟨⟨⟨⟨⟨⟨⟨hf1, hf2⟩, hf3⟩, ⟨⟨hl1, hl2⟩, hl3⟩⟩, ⟨he1, he2⟩⟩,
      ⟨hp1, hp2⟩⟩, hcp⟩, hpc⟩ := hv
    refine ⟨hf2, hf3, hl2, hl3, ?_, ?_, ?_⟩
    · have hne : ¬ (r.email = "") := by
        simpa [CustomValidators.requiredOk] using he1
      have h2 : r.email = "" ∨ emailValid r.email = true := by
        simpa using he2
      rcases h2 with h | h
      · exact absurd h hne
      · exact h
    · have hne : ¬ (r.password = "") := by
        simpa [CustomValidators.requiredOk] using hp1
      have h2 : r.password = "" ∨ r.password.length ≥ 8 := by
        simpa [CustomValidators.minLengthOk] using hp2
      rcases h2 with h | h
      · exact absurd h hne
      · exact h
    · simpa using hpc
  · intro hv hex
    have hne : ¬ (r.email = "") := by
      unfold RegisterComponent.registerFormValid at hv
      simp only [Bool.and_eq_true] at hv
      simpa [CustomValidators.requiredOk] using hv.1.1.1.2.1
    unfold RegisterComponent.onSubmitFlow
    simp [hv, hex, hne]

/-- Witness for the amended C7: a concrete valid registration with a
taken email fails as duplicate, and its email passes the pattern. -/
theorem register_flow_spec_witness :
    RegisterComponent.onSubmitFlow
      ⟨"John", "Doe", "john@example.com", "Password1", "Password1"⟩ true =
      .duplicateEmail ∧
    emailValid "john@example.com" = true :=
  ⟨(register_flow_spec
      ⟨"John", "Doe", "john@example.com", "Password1", "Password1"⟩
      true).2.2 (by decide) rfl,
   ((register_flow_spec
      ⟨"John", "Doe", "john@example.com", "Password1", "Password1"⟩
      true).2.1 (by decide)).2.2.2.2.1⟩

/-- C8 counterexample: with the underlying storage failing (storage
disabled throws a `SecurityError`), `hasItem` and `getAllKeys` — which
have no `try`/`catch` — propagate the exception to the caller instead
of degrading. -/
theorem hasItem_propagates_storage_failure :
    StorageService.hasItem true [] "authenticated" =
      .error "SecurityError" ∧
    StorageService.getAllKeys true [("user_data", "x")] =
      .error "SecurityError" := by
  decide

/-- C8 (amended): the four wrapped operations `setItem`, `getItem`,
`removeItem` and `clear` are total toward the caller — whatever the
underlying storage does, they never propagate an error, and on a
storage failure `setItem`/`removeItem`/`clear` degrade to a no-op and
`getItem` to absent; `hasItem` and `getAllKeys` are the exception
established by `hasItem_propagates_storage_failure`. -/
theorem storage_best_effort_spec (fault : Bool) (ls : RawStorage)
    (k v : String) :
    (∀ e : String,
      StorageService.setItem fault ls k v ≠ .error e ∧
      StorageService.getItem fault ls k ≠ .error e ∧
      StorageService.removeItem fault ls k ≠ .error e ∧
      StorageService.clear fault ls ≠ .error e) ∧
    (fault = true →
      StorageService.setItem fault ls k v = .ok ls ∧
      StorageService.getItem fault ls k = .ok none ∧
      StorageService.removeItem fault ls k = .ok ls ∧
      StorageService.clear fault ls = .ok ls) := by
  cases fault <;>
    simp [StorageService.setItem, StorageService.getItem,
          StorageService.removeItem, StorageService.clear,
          localStorageSetItem, localStorageGetItem,
          localStorageRemoveItem, localStorageClear]

/-- Witness for the amended C8: a faulted `setItem` returns normally,
leaving the store untouched. -/
theorem storage_best_effort_spec_witness :
    StorageService.setItem true [] "authenticated" "true" = .ok [] :=
  ((storage_best_effort_spec true [] "authenticated" "true").2 rfl).1

/-- C9: the auth guard allows navigation iff the snapshot is
authenticated and otherwise denies after redirecting to the login
destination; the guest guard allows iff its service reports not
authenticated and otherwise denies after redirecting home.  Both are
functions of the state alone and return only the decision — they
mutate nothing. -/
theorem guards_spec (st : AuthState) (ls : RawStorage) :
    ((authGuard st).1 = true ↔ AuthService.isLoggedIn st = true) ∧
    (AuthService.isLoggedIn st = false →
      authGuard st = (false, some "/auth/login")) ∧
    (AuthService.isLoggedIn st = true → (authGuard st).2 = none) ∧
    ((guestGuard ls).1 = true ↔ LegacyAuthService.isLoged ls = false) ∧
    (LegacyAuthService.isLoged ls = true → guestGuard ls = (false, some "/")) ∧
    (LegacyAuthService.isLoged ls = false → (guestGuard ls).2 = none) := by
  cases h1 : AuthService.isLoggedIn st <;>
    cases h2 : LegacyAuthService.isLoged ls <;>
      simp [authGuard, guestGuard, h1, h2]

/-- Witness for C9: on the empty session the auth guard denies toward
the login route, and with the persisted flag set the guest guard denies
toward home. -/
theorem guards_spec_witness :
    authGuard ⟨none, false, false, []⟩ = (false, some "/auth/login") ∧
    guestGuard [("authenticated", "true")] = (false, some "/") :=
  ⟨(guards_spec ⟨none, false, false, []⟩ [("authenticated", "true")]).2.1 rfl,
   (guards_spec ⟨none, false, false, []⟩
     [("authenticated", "true")]).2.2.2.2.1 rfl⟩

/-- C10: `validatePasswordStrength` returns a violations list holding
exactly the failed checks among length-at-least-8, has-uppercase,
has-lowercase, has-digit and has-special, and its valid flag is true
iff that list is empty, iff all five checks pass; the three character
tests coincide with the ASCII predicates `Char.isUpper`,
`Char.isLower`, `Char.isDigit`. -/
theorem validatePasswordStrength_spec (p : String) :
    ((PasswordService.validatePasswordStrength p).1 = true ↔
      (PasswordService.validatePasswordStrength p).2 = []) ∧
    ((PasswordService.validatePasswordStrength p).1 = true ↔
      (p.length ≥ 8 ∧ PasswordService.hasUpperChar p = true ∧
       PasswordService.hasLowerChar p = true ∧
       PasswordService.hasDigitChar p = true ∧
       PasswordService.hasSpecialChar p = true)) ∧
    ("Password must be at least 8 characters long" ∈
        (PasswordService.validatePasswordStrength p).2 ↔ p.length < 8) ∧
    ("Password must contain at least one uppercase letter" ∈
        (PasswordService.validatePasswordStrength p).2 ↔
      PasswordService.hasUpperChar p = false) ∧
    ("Password must contain at least one lowercase letter" ∈
        (PasswordService.validatePasswordStrength p).2 ↔
      PasswordService.hasLowerChar p = false) ∧
    ("Password must contain at least one number" ∈
        (PasswordService.validatePasswordStrength p).2 ↔
      PasswordService.hasDigitChar p = false) ∧
    ("Password must contain at least one special character" ∈
        (PasswordService.validatePasswordStrength p).2 ↔
      PasswordService.hasSpecialChar p = false) ∧
    PasswordService.hasUpperChar p = p.toList.any Char.isUpper ∧
    PasswordService.hasLowerChar p = p.toList.any Char.isLower ∧
    PasswordService.hasDigitChar p = p.toList.any Char.isDigit := by
  have hup : PasswordService.hasUpperChar p = p.toList.any Char.isUpper := rfl
  have hlo : PasswordService.hasLowerChar p = p.toList.any Char.isLower := rfl
  have hdi : PasswordService.hasDigitChar p = p.toList.any Char.isDigit := rfl
  refine ⟨?_, ?_, ?_, ?_, ?_, ?_, ?_, hup, hlo, hdi⟩ <;>
    simp only [PasswordService.validatePasswordStrength] <;>
    by_cases h1 : p.length < 8 <;>
      by_cases h2 : PasswordService.hasUpperChar p = true <;>
        by_cases h3 : PasswordService.hasLowerChar p = true <;>
          by_cases h4 : PasswordService.hasDigitChar p = true <;>
            by_cases h5 : PasswordService.hasSpecialChar p = true <;>
              simp_all

/-- Witness for C10: the short password "abc" carries the length
violation. -/
theorem validatePasswordStrength_spec_witness :
    "Password must be at least 8 characters long" ∈
      (PasswordService.validatePasswordStrength "abc").2 :=
  (validatePasswordStrength_spec "abc").2.2.1.mpr (by decide)

example :
    AuthService.login (.ok []) ⟨"a@b.com", "x"⟩
      ⟨none, false, false, []⟩ =
    (.error "User not found", ⟨none, false, false, []⟩) := by decide

example :
    RegisterComponent.registerFormValid
      ⟨"John", "Doe", "john@example.com", "aaaaaaaa", "aaaaaaaa"⟩ = true := by decide

example :
    (PasswordService.validatePasswordStrength "aaaaaaaa").1 = false := by decide

example :
    PasswordService.validatePasswordStrength "Secret12!" = (true, []) := by decide

example :
    (AuthService.login
      (.ok [⟨"1", "John", "Doe", "john@example.com", "Secret12!"⟩])
      ⟨"john@example.com", "Secret12!"⟩ ⟨none, false, false, []⟩).1 =
    .ok ⟨"1", "John", "Doe", "john@example.com"⟩ := by decide
